import Mathlib

/-!
Verification of the FlexOrder checkout core (`src/checkout_monolitico.py`).

Shallow embedding: Python floats are modelled as rationals (`ℚ`), the
decorator chain over `ComponentePedido` as an inductive tree, the facade's
side effects (inventory registration, invoice emission) as an explicit
event list.
-/

namespace FlexOrder

/-- An order item: name and value (`{'nome': ..., 'valor': ...}`). -/
structure Item where
  nome : String
  valor : ℚ
deriving DecidableEq

/-- The component hierarchy of the Decorator pattern: `PedidoBase`,
`DecoradorPedido` (the concrete forwarding base class), and the two
concrete decorators `DescontoPedidoGrande` and `TaxaEmbalagemPresente`
(with its `taxa` field, default `5.00`). -/
inductive ComponentePedido where
  | pedidoBase (itens : List Item)
  | decoradorPedido (pedido : ComponentePedido)
  | descontoPedidoGrande (pedido : ComponentePedido)
  | taxaEmbalagemPresente (pedido : ComponentePedido) (taxa : ℚ)
deriving DecidableEq

/-- `calcular_valor` of each component.  `PedidoBase` sums its items'
values; `DecoradorPedido` forwards; `DescontoPedidoGrande` multiplies by
`0.90` when the inner value exceeds 500; `TaxaEmbalagemPresente` adds its
fee unconditionally. -/
def ComponentePedido.calcular_valor : ComponentePedido → ℚ
  | .pedidoBase itens => (itens.map Item.valor).sum
  | .decoradorPedido p => p.calcular_valor
  | .descontoPedidoGrande p =>
      if p.calcular_valor > 500 then p.calcular_valor * (90 / 100)
      else p.calcular_valor
  | .taxaEmbalagemPresente p taxa => p.calcular_valor + taxa

/-- Rendering of a monetary amount, standing in for Python's `f"{x:.2f}"`. -/
def formatReal (q : ℚ) : String :=
  let cents : ℤ := round (q * 100)
  let sign := if cents < 0 then "-" else ""
  let a := cents.natAbs
  sign ++ toString (a / 100) ++ "." ++
    (if a % 100 < 10 then "0" else "") ++ toString (a % 100)

/-- `get_descricao` of each component.  `DescontoPedidoGrande` re-evaluates
the inner value against the 500 threshold to decide whether to append its
note; `TaxaEmbalagemPresente` always appends its note. -/
def ComponentePedido.get_descricao : ComponentePedido → String
  | .pedidoBase itens => "Pedido com " ++ toString itens.length ++ " itens"
  | .decoradorPedido p => p.get_descricao
  | .descontoPedidoGrande p =>
      if p.calcular_valor > 500 then
        p.get_descricao ++ " + Desconto Pedido Grande (10%)"
      else p.get_descricao
  | .taxaEmbalagemPresente p taxa =>
      p.get_descricao ++ " + Embalagem Presente (R$" ++ formatReal taxa ++ ")"

/-- The payment Strategy family: `PagamentoPix`, `PagamentoCredito`
(with its credit `limite`, default `1000.0`), `PagamentoMana`. -/
inductive EstrategiaPagamento where
  | pix
  | credito (limite : ℚ)
  | mana
deriving DecidableEq

/-- `processar`: Pix and Mana always approve; Credito approves iff the
amount is strictly below the limit. -/
def EstrategiaPagamento.processar : EstrategiaPagamento → ℚ → Bool
  | .pix, _ => true
  | .credito limite, valor => decide (valor < limite)
  | .mana, _ => true

/-- `get_desconto`: Pix gives 5%, the others 0. -/
def EstrategiaPagamento.get_desconto : EstrategiaPagamento → ℚ
  | .pix => 5 / 100
  | .credito _ => 0
  | .mana => 0

/-- The shipping Strategy family: `FreteNormal`, `FreteExpresso`,
`FreteTeletransporte`. -/
inductive EstrategiaFrete where
  | normal
  | expresso
  | teletransporte
deriving DecidableEq

/-- `calcular`: Normal is 5% of the order value, Expresso is 10% plus a
flat `15.00`, Teletransporte a flat `50.00`. -/
def EstrategiaFrete.calcular : EstrategiaFrete → ℚ → ℚ
  | .normal, valor_pedido => valor_pedido * (5 / 100)
  | .expresso, valor_pedido => valor_pedido * (10 / 100) + 15
  | .teletransporte, _ => 50

/-- The `Pedido` context: one component, one payment strategy, one
shipping strategy. -/
structure Pedido where
  componente_pedido : ComponentePedido
  estrategia_pagamento : EstrategiaPagamento
  estrategia_frete : EstrategiaFrete
deriving DecidableEq

/-- `calcular_valor_com_desconto_pagamento`: the component's value with
the payment method's discount applied when that discount is positive. -/
def Pedido.calcular_valor_com_desconto_pagamento (p : Pedido) : ℚ :=
  let valor := p.componente_pedido.calcular_valor
  let desconto := p.estrategia_pagamento.get_desconto
  if desconto > 0 then valor * (1 - desconto) else valor

/-- `calcular_frete`: the shipping strategy applied to the
payment-discounted value. -/
def Pedido.calcular_frete (p : Pedido) : ℚ :=
  p.estrategia_frete.calcular p.calcular_valor_com_desconto_pagamento

/-- `calcular_valor_final`: discounted value plus shipping cost. -/
def Pedido.calcular_valor_final (p : Pedido) : ℚ :=
  p.calcular_valor_com_desconto_pagamento + p.calcular_frete

/-- `processar_pagamento`: the payment strategy applied to the final
value. -/
def Pedido.processar_pagamento (p : Pedido) : Bool :=
  p.estrategia_pagamento.processar p.calcular_valor_final

/-- `Pedido.get_descricao` delegates to the component. -/
def Pedido.get_descricao (p : Pedido) : String :=
  p.componente_pedido.get_descricao

/-- Observable side effects of the facade's collaborators:
`SistemaEstoque.registrar_pedido` reads the order's description,
`GeradorNotaFiscal.emitir_nota` receives the final value. -/
inductive Evento where
  | registrarPedido (descricao : String)
  | emitirNota (valor : ℚ)
deriving DecidableEq

/-- `CheckoutFacade.concluir_transacao`: compute the final value, process
the payment, and on approval notify the inventory system and the invoice
generator; on rejection do neither.  Returns the outcome together with the
list of collaborator events. -/
def concluir_transacao (pedido : Pedido) : Bool × List Evento :=
  let valor_final := pedido.calcular_valor_final
  if pedido.processar_pagamento then
    (true, [Evento.registrarPedido pedido.get_descricao,
            Evento.emitirNota valor_final])
  else
    (false, [])

/-- The discount note appended by `DescontoPedidoGrande.get_descricao`. -/
def descontoNote : String := " + Desconto Pedido Grande (10%)"

/-- Demo scenario 1: items of 150.0 and 80.0, Pix payment, normal
shipping. -/
def pedido1 : Pedido :=
  ⟨ComponentePedido.pedidoBase
      [⟨"Capa da Invisibilidade", 150⟩, ⟨"Pocao de Voo", 80⟩],
   EstrategiaPagamento.pix, EstrategiaFrete.normal⟩

/-- Demo scenario 2: one item of 600.0, decorated with
`DescontoPedidoGrande` then `TaxaEmbalagemPresente` (fee 5.0), credit
payment with the default limit 1000.0, express shipping. -/
def pedido2 : Pedido :=
  ⟨ComponentePedido.taxaEmbalagemPresente
      (ComponentePedido.descontoPedidoGrande
        (ComponentePedido.pedidoBase [⟨"Cristal Magico", 600⟩])) 5,
   EstrategiaPagamento.credito 1000, EstrategiaFrete.expresso⟩

/-- A rejected order: final value 2100 exceeds the credit limit 1000. -/
def pedidoRejeitado : Pedido :=
  ⟨ComponentePedido.pedidoBase [⟨"Tesouro", 2000⟩],
   EstrategiaPagamento.credito 1000, EstrategiaFrete.normal⟩

end FlexOrder

namespace FlexOrder

/-- C1: for every order, `calcular_valor_final` equals the
payment-discounted value plus the shipping cost, and the shipping cost is
the shipping strategy applied to the payment-discounted value (not to the
undiscounted component value). -/
theorem C1_final_value_decomposition (p : Pedido) :
    p.calcular_valor_final =
      p.calcular_valor_com_desconto_pagamento + p.calcular_frete ∧
    p.calcular_frete =
      p.estrategia_frete.calcular p.calcular_valor_com_desconto_pagamento := by
  exact ⟨rfl, rfl⟩

/-- C2: `DescontoPedidoGrande.calcular_valor` is the inner value times
`0.9` when the inner value strictly exceeds 500 and the inner value
unchanged otherwise; in particular an inner value of exactly 500 receives
no discount. -/
theorem C2_large_order_discount_value (x : ComponentePedido) :
    (ComponentePedido.descontoPedidoGrande x).calcular_valor =
      (if x.calcular_valor > 500 then x.calcular_valor * (90 / 100)
       else x.calcular_valor) ∧
    (x.calcular_valor = 500 →
      (ComponentePedido.descontoPedidoGrande x).calcular_valor =
        x.calcular_valor) := by
  refine ⟨rfl, fun h => ?_⟩
  simp [ComponentePedido.calcular_valor, h]

/-- C2 witness: a base order of value exactly 500 passes through the
discount decorator unchanged. -/
theorem C2_large_order_discount_value_witness :
    (ComponentePedido.descontoPedidoGrande
        (ComponentePedido.pedidoBase [⟨"Espada", 500⟩])).calcular_valor =
      (ComponentePedido.pedidoBase [⟨"Espada", 500⟩]).calcular_valor :=
  (C2_large_order_discount_value
      (ComponentePedido.pedidoBase [⟨"Espada", 500⟩])).2
    (by simp [ComponentePedido.calcular_valor])

/-- C4: `PagamentoCredito.processar` approves exactly the amounts strictly
below the limit; an amount equal to the limit is rejected. -/
theorem C4_credit_strict_limit (valor limite : ℚ) :
    ((EstrategiaPagamento.credito limite).processar valor = true ↔
      valor < limite) ∧
    (EstrategiaPagamento.credito limite).processar limite = false := by
  constructor
  · simp [EstrategiaPagamento.processar]
  · simp [EstrategiaPagamento.processar]

/-- C3: when a component's value does not exceed 500 but the gift-wrap fee
pushes it over 500, the two decorator orders give different values:
`DescontoPedidoGrande (TaxaEmbalagemPresente x)` discounts the fee-added
value while `TaxaEmbalagemPresente (DescontoPedidoGrande x)` does not
discount at all. -/
theorem C3_decorator_order_matters (x : ComponentePedido) (taxa : ℚ)
    (h1 : x.calcular_valor ≤ 500) (h2 : x.calcular_valor + taxa > 500) :
    (ComponentePedido.descontoPedidoGrande
        (ComponentePedido.taxaEmbalagemPresente x taxa)).calcular_valor ≠
      (ComponentePedido.taxaEmbalagemPresente
        (ComponentePedido.descontoPedidoGrande x) taxa).calcular_valor := by
  have hpos : (0 : ℚ) < x.calcular_valor + taxa := lt_trans (by norm_num) h2
  simp only [ComponentePedido.calcular_valor]
  rw [if_pos h2, if_neg (not_lt.mpr h1)]
  intro h
  linarith

/-- C3 witness: base value 500 with fee 5 gives 454.5 in one order and
505 in the other. -/
theorem C3_decorator_order_matters_witness :
    (ComponentePedido.descontoPedidoGrande
        (ComponentePedido.taxaEmbalagemPresente
          (ComponentePedido.pedidoBase [⟨"Espada Longa", 500⟩]) 5)).calcular_valor ≠
      (ComponentePedido.taxaEmbalagemPresente
        (ComponentePedido.descontoPedidoGrande
          (ComponentePedido.pedidoBase [⟨"Espada Longa", 500⟩])) 5).calcular_valor :=
  C3_decorator_order_matters (ComponentePedido.pedidoBase [⟨"Espada Longa", 500⟩]) 5
    (by norm_num [ComponentePedido.calcular_valor])
    (by norm_num [ComponentePedido.calcular_valor])

/-- C5: the facade returns true and produces exactly the inventory event
(with the order's description) and the invoice event (with the computed
final value) when the bound payment strategy approves the final value;
when it rejects, the facade returns false and produces no events. -/
theorem C5_facade_behavior (p : Pedido) :
    (p.estrategia_pagamento.processar p.calcular_valor_final = true →
      concluir_transacao p =
        (true, [Evento.registrarPedido p.get_descricao,
                Evento.emitirNota p.calcular_valor_final])) ∧
    (p.estrategia_pagamento.processar p.calcular_valor_final = false →
      concluir_transacao p = (false, [])) := by
  constructor <;> intro h <;>
    simp [concluir_transacao, Pedido.processar_pagamento, h]

/-- C5 witness: scenario 1 (Pix always approves) produces both events and
returns true; a credit order over the limit produces no events and returns
false. -/
theorem C5_facade_behavior_witness :
    concluir_transacao pedido1 =
      (true, [Evento.registrarPedido pedido1.get_descricao,
              Evento.emitirNota pedido1.calcular_valor_final]) ∧
    concluir_transacao pedidoRejeitado = (false, []) :=
  ⟨(C5_facade_behavior pedido1).1 rfl,
   (C5_facade_behavior pedidoRejeitado).2
     (by norm_num [pedidoRejeitado, Pedido.calcular_valor_final,
        Pedido.calcular_frete, Pedido.calcular_valor_com_desconto_pagamento,
        ComponentePedido.calcular_valor, EstrategiaPagamento.processar,
        EstrategiaPagamento.get_desconto, EstrategiaFrete.calcular])⟩

/-- C6: `DescontoPedidoGrande.get_descricao` appends the discount note
exactly when the inner component's raw value strictly exceeds 500, the
condition being re-evaluated on the inner value; otherwise it returns the
inner description unchanged. -/
theorem C6_discount_describe_condition (x : ComponentePedido) :
    (ComponentePedido.descontoPedidoGrande x).get_descricao =
      (if x.calcular_valor > 500 then x.get_descricao ++ descontoNote
       else x.get_descricao) := rfl

/-- C7: `TaxaEmbalagemPresente.calcular_valor` is the inner value plus the
fee with no threshold gate, and its `get_descricao` always appends the fee
note to the inner description. -/
theorem C7_gift_wrap_fee (x : ComponentePedido) (taxa : ℚ) :
    (ComponentePedido.taxaEmbalagemPresente x taxa).calcular_valor =
      x.calcular_valor + taxa ∧
    (ComponentePedido.taxaEmbalagemPresente x taxa).get_descricao =
      x.get_descricao ++ " + Embalagem Presente (R$" ++ formatReal taxa ++ ")" :=
  ⟨rfl, rfl⟩

/-- C8: in demo scenario 2, the component value is 545, the discounted
value is 545, the shipping cost 69.5, the final value 614.5, and the
payment is approved. -/
theorem C8_scenario2_numbers :
    pedido2.componente_pedido.calcular_valor = 545 ∧
    pedido2.calcular_valor_com_desconto_pagamento = 545 ∧
    pedido2.calcular_frete = 69.5 ∧
    pedido2.calcular_valor_final = 614.5 ∧
    pedido2.processar_pagamento = true := by
  norm_num [pedido2, Pedido.processar_pagamento, Pedido.calcular_valor_final,
    Pedido.calcular_frete, Pedido.calcular_valor_com_desconto_pagamento,
    ComponentePedido.calcular_valor, EstrategiaPagamento.processar,
    EstrategiaPagamento.get_desconto, EstrategiaFrete.calcular]

/-- C9: wrapping any component in the concrete base decorator class
`DecoradorPedido` changes neither its value nor its description. -/
theorem C9_base_decorator_identity (x : ComponentePedido) :
    (ComponentePedido.decoradorPedido x).calcular_valor = x.calcular_valor ∧
    (ComponentePedido.decoradorPedido x).get_descricao = x.get_descricao :=
  ⟨rfl, rfl⟩

/-- C10 counterexample: for an empty base order (value 0) the discount
note is absent, yet `calcular_valor` does equal the inner value times 0.9
(both are 0), so the claimed equivalence fails as stated. -/
theorem C10_describe_value_agreement_cex :
    ¬ (((ComponentePedido.descontoPedidoGrande
            (ComponentePedido.pedidoBase [])).get_descricao =
          (ComponentePedido.pedidoBase ([] : List Item)).get_descricao ++
            descontoNote) ↔
        ((ComponentePedido.descontoPedidoGrande
            (ComponentePedido.pedidoBase [])).calcular_valor =
          (ComponentePedido.pedidoBase ([] : List Item)).calcular_valor *
            (90 / 100))) := by
  intro h
  have h2 := h.mpr (by norm_num [ComponentePedido.calcular_valor])
  have hdesc : (ComponentePedido.descontoPedidoGrande
      (ComponentePedido.pedidoBase [])).get_descricao =
      (ComponentePedido.pedidoBase ([] : List Item)).get_descricao := by
    norm_num [ComponentePedido.get_descricao, ComponentePedido.calcular_valor]
  rw [hdesc] at h2
  have hl := congrArg String.length h2
  rw [String.length_append] at hl
  have hz : descontoNote.length = 0 := by omega
  exact absurd hz (by decide)

/-- C10 (amended): for every inner component of nonzero value, the
discount note appears in `get_descricao` exactly when `calcular_valor`
returns the inner value times 0.9; at inner value 0 the two sides can
disagree because the reduced value coincides with the unchanged value. -/
theorem C10_describe_value_agreement (x : ComponentePedido)
    (hx : x.calcular_valor ≠ 0) :
    ((ComponentePedido.descontoPedidoGrande x).get_descricao =
        x.get_descricao ++ descontoNote) ↔
      ((ComponentePedido.descontoPedidoGrande x).calcular_valor =
        x.calcular_valor * (90 / 100)) := by
  by_cases h : x.calcular_valor > 500
  · simp [ComponentePedido.get_descricao, ComponentePedido.calcular_valor,
      descontoNote, h]
  · simp only [ComponentePedido.get_descricao, ComponentePedido.calcular_valor,
      if_neg h]
    constructor
    · intro habs
      have hl := congrArg String.length habs
      rw [String.length_append] at hl
      have hz : descontoNote.length = 0 := by omega
      exact absurd hz (by decide)
    · intro habs
      exact absurd (by linarith) hx

/-- C10 witness: a base order of value 600 has both the note and the
reduced value. -/
theorem C10_describe_value_agreement_witness :
    ((ComponentePedido.descontoPedidoGrande
        (ComponentePedido.pedidoBase [⟨"Cristal", 600⟩])).get_descricao =
      (ComponentePedido.pedidoBase [⟨"Cristal", 600⟩]).get_descricao ++
        descontoNote) ↔
    ((ComponentePedido.descontoPedidoGrande
        (ComponentePedido.pedidoBase [⟨"Cristal", 600⟩])).calcular_valor =
      (ComponentePedido.pedidoBase [⟨"Cristal", 600⟩]).calcular_valor *
        (90 / 100)) :=
  C10_describe_value_agreement (ComponentePedido.pedidoBase [⟨"Cristal", 600⟩])
    (by norm_num [ComponentePedido.calcular_valor])

end FlexOrder
